import Mathlib

/-!
Shallow embedding of the pwru kprobe engine (src/bpf/kprobe_pwru.c).

Kernel memory that the probe reads with bpf_probe_read is modelled as a
byte-addressed partial map; a read of n bytes succeeds iff every byte is
readable, and a failed read zero-fills its destination, matching the
helper's memset-on-fault contract.  Multi-byte scalars are assembled
little-endian, matching the x86 layout the program is compiled for.
-/

set_option autoImplicit false

namespace Pwru

/-- Byte-addressed kernel memory; `none` marks an unreadable byte. -/
abbrev Mem : Type := Nat → Option Nat

/-- bpf_probe_read of `n` bytes starting at `addr`: succeeds iff every byte
in the range is readable, returning the bytes in address order. -/
def probeRead (m : Mem) (addr : Nat) : Nat → Option (List Nat)
  | 0 => some []
  | n + 1 =>
    match m addr with
    | none => none
    | some b =>
      match probeRead m (addr + 1) n with
      | none => none
      | some bs => some (b :: bs)

/-- Little-endian value of a byte list. -/
def leVal : List Nat → Nat
  | [] => 0
  | b :: bs => b + 256 * leVal bs

/-- bpf_probe_read into an `n`-byte scalar destination: the helper
zero-fills the destination when the read faults. -/
def readScalar (m : Mem) (addr n : Nat) : Nat :=
  match probeRead m addr n with
  | some bs => leVal bs
  | none => 0

def IPPROTO_TCP : Nat := 6
def IPPROTO_UDP : Nat := 17

/-- The fields of `struct iphdr` that the program uses, as obtained by one
20-byte bpf_probe_read of the header (zero-filled on fault): `protocol` is
byte 9, `saddr` bytes 12..15, `daddr` bytes 16..19. -/
structure IpHdr where
  protocol : Nat
  saddr : Nat
  daddr : Nat
  deriving DecidableEq, Repr

def readIphdr (m : Mem) (addr : Nat) : IpHdr :=
  match probeRead m addr 20 with
  | some bs =>
    { protocol := bs.getD 9 0
      saddr := leVal ((bs.drop 12).take 4)
      daddr := leVal ((bs.drop 16).take 4) }
  | none => { protocol := 0, saddr := 0, daddr := 0 }

/-- `struct tcphdr` read (20 bytes, all-or-nothing); the source port is
bytes 0..1 and the destination port bytes 2..3. -/
def readTcpPorts (m : Mem) (addr : Nat) : Nat × Nat :=
  match probeRead m addr 20 with
  | some bs => (leVal (bs.take 2), leVal ((bs.drop 2).take 2))
  | none => (0, 0)

/-- `struct udphdr` read (8 bytes, all-or-nothing); the source port is
bytes 0..1 and the destination port bytes 2..3. -/
def readUdpPorts (m : Mem) (addr : Nat) : Nat × Nat :=
  match probeRead m addr 8 with
  | some bs => (leVal (bs.take 2), leVal ((bs.drop 2).take 2))
  | none => (0, 0)

/-- `union addr`: 16 bytes viewed either as two u64 words (`pad`) or as a
v4 address occupying the low 4 bytes of the first word (little-endian). -/
structure AddrUnion where
  pad0 : Nat
  pad1 : Nat
  deriving DecidableEq, Repr

def AddrUnion.v4addr (a : AddrUnion) : Nat := a.pad0 % 2 ^ 32

/-- `struct config`, the singleton filter configuration. -/
structure Config where
  mark : Nat
  ipv6 : Nat
  saddr : AddrUnion
  daddr : AddrUnion
  l4_proto : Nat
  sport : Nat
  dport : Nat
  output_timestamp : Nat
  output_meta : Nat
  output_tuple : Nat
  output_skb : Nat
  output_stack : Nat
  deriving DecidableEq, Repr

/-- `struct net_device` fields the program dereferences. -/
structure NetDevice where
  ifindex : Nat
  mtu : Nat
  deriving DecidableEq, Repr

/-- The traced `struct sk_buff`.  Scalar fields carry `Option` because the
bounded reads of them may fail (`none` standing for a faulting read, which
the helper turns into a zero); `dev` is `none` when the device pointer
cannot be dereferenced.  `head`, `network_header` and `transport_header`
locate the protocol headers inside `mem`. -/
structure SkBuff where
  mark : Option Nat
  len : Option Nat
  protocol : Option Nat
  dev : Option NetDevice
  head : Nat
  network_header : Nat
  transport_header : Nat
  mem : Mem

/-- `struct skb_meta`. -/
structure SkbMeta where
  mark : Nat
  ifindex : Nat
  len : Nat
  mtu : Nat
  protocol : Nat
  deriving DecidableEq, Repr

/-- `struct tuple`; `pad` is the trailing 7 raw bytes. -/
structure Tuple where
  saddr : Nat
  daddr : Nat
  sport : Nat
  dport : Nat
  proto : Nat
  pad : List Nat
  deriving DecidableEq, Repr

/-- `struct event_t`. -/
structure Event where
  pid : Nat
  type : Nat
  addr : Nat
  skb_addr : Nat
  ts : Nat
  print_skb_id : Nat
  meta : SkbMeta
  tuple : Tuple
  print_stack_id : Int
  deriving DecidableEq, Repr

def zeroMeta : SkbMeta :=
  { mark := 0, ifindex := 0, len := 0, mtu := 0, protocol := 0 }

def zeroTuple : Tuple :=
  { saddr := 0, daddr := 0, sport := 0, dport := 0, proto := 0
    pad := List.replicate 7 0 }

/-- `struct event_t event = {}` in handle_everything. -/
def zeroEvent : Event :=
  { pid := 0, type := 0, addr := 0, skb_addr := 0, ts := 0
    print_skb_id := 0, meta := zeroMeta, tuple := zeroTuple
    print_stack_id := 0 }

/-- The pt_regs context together with the values the bpf helpers supply
during this invocation (current pid_tgid, clock, stack-table id). -/
structure Ctx where
  di : Nat
  si : Nat
  dx : Nat
  cx : Nat
  r8 : Nat
  ip : Nat
  pid_tgid : Nat
  ktime_ns : Nat
  stackid : Int

/-- State of the full-object dump ring: the shared u64 counter
`print_skb_id`, plus whether the per-slot buffer lookup and the
bpf_snprintf_btf rendering succeed for a given slot. -/
structure DumpState where
  print_skb_id : Nat
  slot_present : Nat → Bool
  fmt_ok : Nat → Bool

/-- filter_mark: pass when no mark is configured, else require equality
with the skb's mark. -/
def filter_mark (skb : SkBuff) (cfg : Config) : Bool :=
  if cfg.mark != 0 then (skb.mark.getD 0) == cfg.mark
  else true

/-- The tail of filter_l3_and_l4 once the ports have been read: skip a
comparison whose configured value is zero, reject on mismatch. -/
def portsPass (cfg : Config) (p : Nat × Nat) : Bool :=
  if cfg.sport != 0 && p.1 != cfg.sport then false
  else if cfg.dport != 0 && p.2 != cfg.dport then false
  else true

/-- filter_l3_and_l4: pass when the whole tuple filter is zero; otherwise
parse the IPv4 header at head + network_header and compare the configured
fields, reading ports at head + transport_header when a port filter is
active. -/
def filter_l3_and_l4 (skb : SkBuff) (cfg : Config) : Bool :=
  if cfg.l4_proto == 0 && cfg.saddr.pad0 == 0 && cfg.saddr.pad1 == 0 &&
      cfg.daddr.pad0 == 0 && cfg.daddr.pad1 == 0 &&
      cfg.sport == 0 && cfg.dport == 0 then
    true
  else
    let l3 := skb.head + skb.network_header
    let iphdr_first_byte := (skb.mem l3).getD 0
    let ip_vsn := iphdr_first_byte >>> 4
    if ip_vsn != 4 then false
    else
      let ip4 := readIphdr skb.mem l3
      if cfg.saddr.v4addr != 0 && ip4.saddr != cfg.saddr.v4addr then false
      else if cfg.daddr.v4addr != 0 && ip4.daddr != cfg.daddr.v4addr then false
      else if cfg.l4_proto != 0 && ip4.protocol != cfg.l4_proto then false
      else if cfg.dport != 0 || cfg.sport != 0 then
        let l4 := skb.head + skb.transport_header
        let ports :=
          if ip4.protocol == IPPROTO_TCP then some (readTcpPorts skb.mem l4)
          else if ip4.protocol == IPPROTO_UDP then some (readUdpPorts skb.mem l4)
          else none
        match ports with
        | none => false
        | some p => portsPass cfg p
      else true

/-- filter: mark predicate short-circuits the costlier tuple predicate. -/
def filter (skb : SkBuff) (cfg : Config) : Bool :=
  filter_mark skb cfg && filter_l3_and_l4 skb cfg

/-- set_meta: mark, len, protocol come straight off the skb (zero on a
faulting read); ifindex and mtu only when the device pointer
dereferences. -/
def set_meta (skb : SkBuff) (meta : SkbMeta) : SkbMeta :=
  let meta :=
    { meta with
      mark := skb.mark.getD 0
      len := skb.len.getD 0
      protocol := skb.protocol.getD 0 }
  match skb.dev with
  | some dev => { meta with ifindex := dev.ifindex, mtu := dev.mtu }
  | none => meta

/-- set_tuple: always records the l4 protocol byte (iphdr byte 9); copies
addresses (and duplicates daddr into pad) only for IP version 4; reads the
ports whenever the recorded protocol byte is TCP or UDP. -/
def set_tuple (skb : SkBuff) (tpl : Tuple) : Tuple :=
  let l3 := skb.head + skb.network_header
  let l4 := skb.head + skb.transport_header
  let tpl := { tpl with proto := readScalar skb.mem (l3 + 9) 1 }
  let iphdr_first_byte := (skb.mem l3).getD 0
  let ip_vsn := iphdr_first_byte >>> 4
  let tpl :=
    if ip_vsn == 4 then
      { tpl with
        saddr := readScalar skb.mem (l3 + 12) 4
        daddr := readScalar skb.mem (l3 + 16) 4
        pad := ((probeRead skb.mem (l3 + 16) 4).getD (List.replicate 4 0)) ++
                 tpl.pad.drop 4 }
    else tpl
  if tpl.proto == IPPROTO_TCP then
    { tpl with
      sport := readScalar skb.mem l4 2
      dport := readScalar skb.mem (l4 + 2) 2 }
  else if tpl.proto == IPPROTO_UDP then
    { tpl with
      sport := readScalar skb.mem l4 2
      dport := readScalar skb.mem (l4 + 2) 2 }
  else tpl

/-- set_skb_btf: fetch-and-add on the shared u64 counter, slot index is
the fetched value mod 256; the event id is written only when both the
buffer lookup and the rendering succeed.  Returns the new ring state, the
resulting event id field, and the computed slot index. -/
def set_skb_btf (ds : DumpState) (event_id : Nat) : DumpState × Nat × Nat :=
  let id := ds.print_skb_id % 256
  let ds1 := { ds with print_skb_id := (ds.print_skb_id + 1) % 2 ^ 64 }
  if ds.slot_present id = false then (ds1, event_id, id)
  else if ds.fmt_ok id = false then (ds1, event_id, id)
  else (ds1, id, id)

/-- set_output: run each extractor guarded by its output flag. -/
def set_output (ctx : Ctx) (skb : SkBuff) (event : Event) (cfg : Config)
    (ds : DumpState) : DumpState × Event :=
  let event :=
    if cfg.output_meta != 0 then { event with meta := set_meta skb event.meta }
    else event
  let event :=
    if cfg.output_tuple != 0 then
      { event with tuple := set_tuple skb event.tuple }
    else event
  let step :=
    if cfg.output_skb != 0 then
      let r := set_skb_btf ds event.print_skb_id
      (r.1, { event with print_skb_id := r.2.1 })
    else (ds, event)
  let ds := step.1
  let event := step.2
  let event :=
    if cfg.output_stack != 0 then { event with print_stack_id := ctx.stackid }
    else event
  (ds, event)

/-- handle_everything: look up the config; with a config present the
filter gates everything; then stamp pid (low 32 bits of pid_tgid), probe
address, skb address and timestamp, and emit exactly one event.  The
returned list holds the events pushed to the perf channel. -/
def handle_everything (world : Nat → SkBuff) (cfgOpt : Option Config)
    (skbAddr : Nat) (ctx : Ctx) (ds : DumpState) : DumpState × List Event :=
  let skb := world skbAddr
  let step : Option (DumpState × Event) :=
    match cfgOpt with
    | some cfg =>
      if filter skb cfg = false then none
      else some (set_output ctx skb zeroEvent cfg ds)
    | none => some (ds, zeroEvent)
  match step with
  | none => (ds, [])
  | some r =>
    (r.1,
      [{ r.2 with
          pid := ctx.pid_tgid % 2 ^ 32
          addr := ctx.ip
          skb_addr := skbAddr
          ts := ctx.ktime_ns }])

def kprobe_skb_1 (world : Nat → SkBuff) (cfgOpt : Option Config) (ctx : Ctx)
    (ds : DumpState) : DumpState × List Event :=
  handle_everything world cfgOpt ctx.di ctx ds

def kprobe_skb_2 (world : Nat → SkBuff) (cfgOpt : Option Config) (ctx : Ctx)
    (ds : DumpState) : DumpState × List Event :=
  handle_everything world cfgOpt ctx.si ctx ds

def kprobe_skb_3 (world : Nat → SkBuff) (cfgOpt : Option Config) (ctx : Ctx)
    (ds : DumpState) : DumpState × List Event :=
  handle_everything world cfgOpt ctx.dx ctx ds

def kprobe_skb_4 (world : Nat → SkBuff) (cfgOpt : Option Config) (ctx : Ctx)
    (ds : DumpState) : DumpState × List Event :=
  handle_everything world cfgOpt ctx.cx ctx ds

def kprobe_skb_5 (world : Nat → SkBuff) (cfgOpt : Option Config) (ctx : Ctx)
    (ds : DumpState) : DumpState × List Event :=
  handle_everything world cfgOpt ctx.r8 ctx ds

/-- The argument-position register that entry point `i` reads. -/
def argReg : Fin 5 → Ctx → Nat
  | 0 => Ctx.di
  | 1 => Ctx.si
  | 2 => Ctx.dx
  | 3 => Ctx.cx
  | 4 => Ctx.r8

/-- The five entry points, indexed. -/
def kprobeEntry : Fin 5 → (Nat → SkBuff) → Option Config → Ctx → DumpState →
    DumpState × List Event
  | 0 => kprobe_skb_1
  | 1 => kprobe_skb_2
  | 2 => kprobe_skb_3
  | 3 => kprobe_skb_4
  | 4 => kprobe_skb_5

/-! Supporting lemmas about probeRead. -/

theorem probeRead_length (m : Mem) :
    ∀ (n : Nat) (a : Nat) (bs : List Nat),
      probeRead m a n = some bs → bs.length = n := by
  intro n
  induction n with
  | zero =>
    intro a bs h
    simp [probeRead] at h
    simp [← h]
  | succ k ih =>
    intro a bs h
    unfold probeRead at h
    cases hma : m a with
    | none => rw [hma] at h; exact absurd h (by simp)
    | some b =>
      rw [hma] at h
      cases hrec : probeRead m (a + 1) k with
      | none => rw [hrec] at h; exact absurd h (by simp)
      | some bs1 =>
        rw [hrec] at h
        simp at h
        rw [← h]
        simp [ih (a + 1) bs1 hrec]

theorem probeRead_take (m : Mem) :
    ∀ (k n : Nat) (a : Nat) (bs : List Nat),
      k ≤ n → probeRead m a n = some bs →
      probeRead m a k = some (bs.take k) := by
  intro k
  induction k with
  | zero => intro n a bs _ _; simp [probeRead]
  | succ j ih =>
    intro n a bs hk h
    cases n with
    | zero => exact absurd hk (by omega)
    | succ n1 =>
      unfold probeRead at h
      cases hma : m a with
      | none => rw [hma] at h; exact absurd h (by simp)
      | some b =>
        rw [hma] at h
        cases hrec : probeRead m (a + 1) n1 with
        | none => rw [hrec] at h; exact absurd h (by simp)
        | some bs1 =>
          rw [hrec] at h
          simp at h
          have := ih n1 (a + 1) bs1 (by omega) hrec
          unfold probeRead
          rw [hma, this, ← h]
          simp

/-! Concrete fixtures used by the witnesses. -/

/-- A traced object none of whose memory is readable. -/
def skbNone : SkBuff :=
  { mark := none, len := none, protocol := none, dev := none
    head := 0, network_header := 0, transport_header := 0
    mem := fun _ => none }

/-- Byte memory of an IPv4/TCP packet: saddr 10.0.0.1, daddr 10.0.0.2,
sport 1234, dport 80, network header at 0, transport header at 20. -/
def mem4 : Mem := fun a =>
  if a = 0 then some 69
  else if a = 9 then some 6
  else if a = 12 then some 10
  else if a = 15 then some 1
  else if a = 16 then some 10
  else if a = 19 then some 2
  else if a = 20 then some 210
  else if a = 21 then some 4
  else if a = 22 then some 80
  else if a < 40 then some 0
  else none

def skb4 : SkBuff :=
  { mark := some 5, len := some 100, protocol := some 8
    dev := some { ifindex := 2, mtu := 1500 }
    head := 0, network_header := 0, transport_header := 20
    mem := mem4 }

/-- Byte memory whose network header has version nibble 6 but whose
protocol byte (offset 9) reads as TCP, with a nonzero source port at the
transport offset. -/
def mem6 : Mem := fun a =>
  if a = 0 then some 96
  else if a = 9 then some 6
  else if a = 20 then some 1
  else if a < 40 then some 0
  else none

def skb6 : SkBuff :=
  { mark := none, len := none, protocol := none, dev := none
    head := 0, network_header := 0, transport_header := 20
    mem := mem6 }

/-- Byte memory of an IPv4 packet whose destination address is 0.0.0.0:
every header byte below 40 reads as zero except the version byte. -/
def mem4z : Mem := fun a =>
  if a = 0 then some 69
  else if a < 40 then some 0
  else none

def skb4z : SkBuff :=
  { mark := none, len := none, protocol := none, dev := none
    head := 0, network_header := 0, transport_header := 20
    mem := mem4z }

def ctx0 : Ctx :=
  { di := 0, si := 0, dx := 0, cx := 0, r8 := 0, ip := 0
    pid_tgid := 0, ktime_ns := 0, stackid := 0 }

def ds0 : DumpState :=
  { print_skb_id := 0, slot_present := fun _ => true, fmt_ok := fun _ => true }

def ds256 : DumpState :=
  { print_skb_id := 256, slot_present := fun _ => true, fmt_ok := fun _ => true }

/-- Config filtering on mark 1 only (tuple portion all zero). -/
def cfgMark1 : Config :=
  { mark := 1, ipv6 := 0, saddr := ⟨0, 0⟩, daddr := ⟨0, 0⟩
    l4_proto := 0, sport := 0, dport := 0
    output_timestamp := 0, output_meta := 0, output_tuple := 0
    output_skb := 0, output_stack := 0 }

/-- Config whose tuple portion is entirely zero (mark set, outputs on). -/
def cfgEmpty : Config :=
  { mark := 7, ipv6 := 0, saddr := ⟨0, 0⟩, daddr := ⟨0, 0⟩
    l4_proto := 0, sport := 0, dport := 0
    output_timestamp := 1, output_meta := 1, output_tuple := 1
    output_skb := 0, output_stack := 0 }

/-- Config filtering on destination port 81 only. -/
def cfgDport81 : Config :=
  { mark := 0, ipv6 := 0, saddr := ⟨0, 0⟩, daddr := ⟨0, 0⟩
    l4_proto := 0, sport := 0, dport := 81
    output_timestamp := 0, output_meta := 0, output_tuple := 0
    output_skb := 0, output_stack := 0 }

/-- Config filtering on destination port 80 only. -/
def cfgDport80 : Config :=
  { mark := 0, ipv6 := 0, saddr := ⟨0, 0⟩, daddr := ⟨0, 0⟩
    l4_proto := 0, sport := 0, dport := 80
    output_timestamp := 0, output_meta := 0, output_tuple := 0
    output_skb := 0, output_stack := 0 }

/-! Claim theorems. -/

/-- Claim C1: when the configuration lookup returns nothing,
handle_everything still emits exactly one event, carrying the process id,
the probe address, the object address and the timestamp, with the
metadata, tuple, dump-slot and stack fields at their zero defaults, and
the dump ring state untouched. -/
theorem handle_everything_no_config (world : Nat → SkBuff) (skbAddr : Nat)
    (ctx : Ctx) (ds : DumpState) :
    handle_everything world none skbAddr ctx ds =
      (ds,
        [{ pid := ctx.pid_tgid % 2 ^ 32, type := 0, addr := ctx.ip
           skb_addr := skbAddr, ts := ctx.ktime_ns, print_skb_id := 0
           meta := zeroMeta, tuple := zeroTuple, print_stack_id := 0 }]) :=
  rfl

/-- Claim C2: when the entire 5-tuple portion of the configuration is
zero, filter_l3_and_l4 passes unconditionally, whatever the traced
object's contents. -/
theorem filter_l3_and_l4_empty_tuple (skb : SkBuff) (cfg : Config)
    (hp : cfg.l4_proto = 0) (hs0 : cfg.saddr.pad0 = 0)
    (hs1 : cfg.saddr.pad1 = 0) (hd0 : cfg.daddr.pad0 = 0)
    (hd1 : cfg.daddr.pad1 = 0) (hsp : cfg.sport = 0) (hdp : cfg.dport = 0) :
    filter_l3_and_l4 skb cfg = true := by
  simp [filter_l3_and_l4, hp, hs0, hs1, hd0, hd1, hsp, hdp]

theorem filter_l3_and_l4_empty_tuple_witness :
    filter_l3_and_l4 skbNone cfgEmpty = true :=
  filter_l3_and_l4_empty_tuple skbNone cfgEmpty rfl rfl rfl rfl rfl rfl rfl

/-- Claim C3: when the traced object's network-layer first nibble is not
4 and at least one tuple filter field is nonzero, filter_l3_and_l4
rejects. -/
theorem filter_l3_and_l4_not_v4 (skb : SkBuff) (cfg : Config)
    (hne : ¬(cfg.l4_proto = 0 ∧ cfg.saddr.pad0 = 0 ∧ cfg.saddr.pad1 = 0 ∧
        cfg.daddr.pad0 = 0 ∧ cfg.daddr.pad1 = 0 ∧ cfg.sport = 0 ∧
        cfg.dport = 0))
    (hv : ((skb.mem (skb.head + skb.network_header)).getD 0) >>> 4 ≠ 4) :
    filter_l3_and_l4 skb cfg = false := by
  have hc : (cfg.l4_proto == 0 && cfg.saddr.pad0 == 0 && cfg.saddr.pad1 == 0 &&
      cfg.daddr.pad0 == 0 && cfg.daddr.pad1 == 0 &&
      cfg.sport == 0 && cfg.dport == 0) = false := by
    by_contra hcc
    rw [Bool.not_eq_false] at hcc
    simp only [Bool.and_eq_true, beq_iff_eq] at hcc
    exact hne ⟨hcc.1.1.1.1.1.1, hcc.1.1.1.1.1.2, hcc.1.1.1.1.2,
      hcc.1.1.1.2, hcc.1.1.2, hcc.1.2, hcc.2⟩
  simp [filter_l3_and_l4, hc, hv]

theorem filter_l3_and_l4_not_v4_witness :
    filter_l3_and_l4 skbNone cfgDport81 = false :=
  filter_l3_and_l4_not_v4 skbNone cfgDport81 (by decide) (by decide)

/-- Claim C6: when configuration is present and the filter rejects,
handle_everything emits nothing and leaves the dump ring state
unchanged. -/
theorem handle_everything_rejected (world : Nat → SkBuff) (cfg : Config)
    (skbAddr : Nat) (ctx : Ctx) (ds : DumpState)
    (h : filter (world skbAddr) cfg = false) :
    handle_everything world (some cfg) skbAddr ctx ds = (ds, []) := by
  simp [handle_everything, h]

theorem handle_everything_rejected_witness :
    handle_everything (fun _ => skbNone) (some cfgMark1) 5 ctx0 ds0 =
      (ds0, []) :=
  handle_everything_rejected (fun _ => skbNone) cfgMark1 5 ctx0 ds0 (by decide)

/-- Claim C7: the dump-slot index chosen by set_skb_btf is the observed
counter value modulo 256; in particular a call observing counter value
256 selects the same slot as a call observing counter value 0. -/
theorem set_skb_btf_slot_mod (ds ds1 ds2 : DumpState) (e e1 e2 : Nat)
    (h1 : ds1.print_skb_id = 256) (h2 : ds2.print_skb_id = 0) :
    (set_skb_btf ds e).2.2 = ds.print_skb_id % 256 ∧
    (set_skb_btf ds1 e1).2.2 = (set_skb_btf ds2 e2).2.2 := by
  have key : ∀ (d : DumpState) (x : Nat),
      (set_skb_btf d x).2.2 = d.print_skb_id % 256 := by
    intro d x
    unfold set_skb_btf
    by_cases hs : d.slot_present (d.print_skb_id % 256) = false <;>
      by_cases hf : d.fmt_ok (d.print_skb_id % 256) = false <;>
      simp [hs, hf]
  exact ⟨key ds e, by rw [key ds1 e1, key ds2 e2, h1, h2]⟩

theorem set_skb_btf_slot_mod_witness :
    (set_skb_btf ds0 0).2.2 = ds0.print_skb_id % 256 ∧
    (set_skb_btf ds256 3).2.2 = (set_skb_btf ds0 4).2.2 :=
  set_skb_btf_slot_mod ds0 ds256 ds0 0 3 4 rfl rfl

/-- Claim C8: when the device pointer cannot be read, set_meta still
populates mark, len and protocol and leaves ifindex and mtu at their zero
defaults. -/
theorem set_meta_dev_absent (skb : SkBuff) (h : skb.dev = none) :
    set_meta skb zeroMeta =
      { mark := skb.mark.getD 0, ifindex := 0, len := skb.len.getD 0
        mtu := 0, protocol := skb.protocol.getD 0 } := by
  simp [set_meta, h, zeroMeta]

theorem set_meta_dev_absent_witness :
    skbNone.dev = none ∧
    set_meta skbNone zeroMeta =
      { mark := skbNone.mark.getD 0, ifindex := 0, len := skbNone.len.getD 0
        mtu := 0, protocol := skbNone.protocol.getD 0 } :=
  ⟨rfl, set_meta_dev_absent skbNone rfl⟩

/-- Claim C9: the five entry points differ only in which argument register
they read the traced-object pointer from; two entry points invoked on
contexts whose respective argument registers hold the same pointer, with
the same instruction pointer and helper-supplied values, handle the
invocation identically. -/
theorem kprobe_dispatch_equiv (i j : Fin 5) (world : Nat → SkBuff)
    (cfgOpt : Option Config) (ctx1 ctx2 : Ctx) (ds : DumpState)
    (harg : argReg i ctx1 = argReg j ctx2)
    (hip : ctx1.ip = ctx2.ip) (hpid : ctx1.pid_tgid = ctx2.pid_tgid)
    (hts : ctx1.ktime_ns = ctx2.ktime_ns)
    (hst : ctx1.stackid = ctx2.stackid) :
    kprobeEntry i world cfgOpt ctx1 ds = kprobeEntry j world cfgOpt ctx2 ds := by
  have hentry : ∀ (k : Fin 5) (c : Ctx),
      kprobeEntry k world cfgOpt c ds =
        handle_everything world cfgOpt (argReg k c) c ds := by
    intro k c
    fin_cases k <;> rfl
  have hctx : ∀ (a : Nat),
      handle_everything world cfgOpt a ctx1 ds =
        handle_everything world cfgOpt a ctx2 ds := by
    intro a
    obtain ⟨d1, s1, x1, c1, r1, ip1, pt1, kt1, st1⟩ := ctx1
    obtain ⟨d2, s2, x2, c2, r2, ip2, pt2, kt2, st2⟩ := ctx2
    dsimp only at hip hpid hts hst
    subst hip; subst hpid; subst hts; subst hst
    cases cfgOpt with
    | none => rfl
    | some cfg =>
      by_cases hf : filter (world a) cfg = false <;>
        simp [handle_everything, set_output, hf]
  calc kprobeEntry i world cfgOpt ctx1 ds
      = handle_everything world cfgOpt (argReg i ctx1) ctx1 ds :=
        hentry i ctx1
    _ = handle_everything world cfgOpt (argReg j ctx2) ctx1 ds := by
        rw [harg]
    _ = handle_everything world cfgOpt (argReg j ctx2) ctx2 ds :=
        hctx (argReg j ctx2)
    _ = kprobeEntry j world cfgOpt ctx2 ds := (hentry j ctx2).symm

theorem kprobe_dispatch_equiv_witness :
    kprobeEntry 0 (fun _ => skbNone) none
      { di := 42, si := 0, dx := 0, cx := 0, r8 := 0, ip := 7
        pid_tgid := 9, ktime_ns := 3, stackid := -1 } ds0 =
    kprobeEntry 1 (fun _ => skbNone) none
      { di := 0, si := 42, dx := 1, cx := 2, r8 := 3, ip := 7
        pid_tgid := 9, ktime_ns := 3, stackid := -1 } ds0 :=
  kprobe_dispatch_equiv 0 1 (fun _ => skbNone) none
    { di := 42, si := 0, dx := 0, cx := 0, r8 := 0, ip := 7
      pid_tgid := 9, ktime_ns := 3, stackid := -1 }
    { di := 0, si := 42, dx := 1, cx := 2, r8 := 3, ip := 7
      pid_tgid := 9, ktime_ns := 3, stackid := -1 } ds0
    rfl rfl rfl rfl rfl

/-- Claim C4: with a port filter active (and the rest of the tuple filter
zero so that control reaches the port stage on a version-4 header),
filter_l3_and_l4 dispatches on the IPv4 protocol byte, rejecting every
protocol other than TCP and UDP; the TCP and UDP branches read the ports
at the same transport-header byte offsets (they agree whenever the
transport bytes are readable); and a port comparison is skipped exactly
when its configured value is zero. -/
theorem filter_l3_and_l4_port_stage (skb : SkBuff) (cfg : Config)
    (a s d : Nat)
    (hport : cfg.sport ≠ 0 ∨ cfg.dport ≠ 0)
    (hs0 : cfg.saddr.pad0 = 0) (hs1 : cfg.saddr.pad1 = 0)
    (hd0 : cfg.daddr.pad0 = 0) (hd1 : cfg.daddr.pad1 = 0)
    (hp : cfg.l4_proto = 0)
    (hv : ((skb.mem (skb.head + skb.network_header)).getD 0) >>> 4 = 4)
    (hr : (probeRead skb.mem a 20).isSome = true) :
    (filter_l3_and_l4 skb cfg =
      (if (readIphdr skb.mem (skb.head + skb.network_header)).protocol =
          IPPROTO_TCP then
        portsPass cfg (readTcpPorts skb.mem (skb.head + skb.transport_header))
      else if (readIphdr skb.mem (skb.head + skb.network_header)).protocol =
          IPPROTO_UDP then
        portsPass cfg (readUdpPorts skb.mem (skb.head + skb.transport_header))
      else false)) ∧
    readTcpPorts skb.mem a = readUdpPorts skb.mem a ∧
    portsPass cfg (s, d) =
      ((cfg.sport == 0 || s == cfg.sport) &&
        (cfg.dport == 0 || d == cfg.dport)) := by
  refine ⟨?_, ?_, ?_⟩
  · rcases hport with h | h <;>
      by_cases hT :
        (readIphdr skb.mem (skb.head + skb.network_header)).protocol = 6 <;>
      by_cases hU :
        (readIphdr skb.mem (skb.head + skb.network_header)).protocol = 17 <;>
      simp [filter_l3_and_l4, AddrUnion.v4addr, hs0, hs1, hd0, hd1, hp, hv,
        h, hT, hU, IPPROTO_TCP, IPPROTO_UDP]
  · obtain ⟨bs, h20⟩ := Option.isSome_iff_exists.mp hr
    have h8 : probeRead skb.mem a 8 = some (bs.take 8) :=
      probeRead_take skb.mem 8 20 a bs (by omega) h20
    simp only [readTcpPorts, readUdpPorts, h20, h8]
    have ht2 : (bs.take 8).take 2 = bs.take 2 := by
      rw [List.take_take]
      norm_num
    have hd2 : ((bs.take 8).drop 2).take 2 = (bs.drop 2).take 2 := by
      rw [List.drop_take, List.take_take]
      norm_num
    rw [ht2, hd2]
  · by_cases h1 : cfg.sport = 0 <;> by_cases h2 : cfg.dport = 0 <;>
      by_cases h3 : s = cfg.sport <;> by_cases h4 : d = cfg.dport <;>
      simp [portsPass, h1, h2, h3, h4]

theorem filter_l3_and_l4_port_stage_witness :
    (filter_l3_and_l4 skb4 cfgDport80 =
      (if (readIphdr skb4.mem (skb4.head + skb4.network_header)).protocol =
          IPPROTO_TCP then
        portsPass cfgDport80
          (readTcpPorts skb4.mem (skb4.head + skb4.transport_header))
      else if (readIphdr skb4.mem (skb4.head + skb4.network_header)).protocol =
          IPPROTO_UDP then
        portsPass cfgDport80
          (readUdpPorts skb4.mem (skb4.head + skb4.transport_header))
      else false)) ∧
    readTcpPorts skb4.mem 20 = readUdpPorts skb4.mem 20 ∧
    portsPass cfgDport80 (7, 9) =
      ((cfgDport80.sport == 0 || 7 == cfgDport80.sport) &&
        (cfgDport80.dport == 0 || 9 == cfgDport80.dport)) :=
  filter_l3_and_l4_port_stage skb4 cfgDport80 20 7 9
    (Or.inr (by decide)) rfl rfl rfl rfl rfl (by decide) (by decide)

/-- Claim C5 counterexample: a traced object whose network header has
version nibble 6 but whose byte at the protocol offset reads as TCP gets
its port fields populated by set_tuple, so ports are not populated "only
when the IP version nibble is 4". -/
theorem set_tuple_version_counterexample :
    (((skb6.mem (skb6.head + skb6.network_header)).getD 0) >>> 4 ≠ 4) ∧
    (set_tuple skb6 zeroTuple).sport ≠ 0 := by
  decide

/-- Claim C5 (amended): set_tuple always records the protocol byte (iphdr
offset 9); it populates the address fields only when the IP version
nibble is 4; it populates the port fields whenever the recorded protocol
byte is TCP or UDP, regardless of the version nibble; and every field it
writes is the result of a zero-filled bounded read, so an unresolvable
header leaves the corresponding fields zero. -/
theorem set_tuple_amended (skb : SkBuff) :
    (set_tuple skb zeroTuple).proto =
      readScalar skb.mem (skb.head + skb.network_header + 9) 1 ∧
    (((skb.mem (skb.head + skb.network_header)).getD 0) >>> 4 ≠ 4 →
      (set_tuple skb zeroTuple).saddr = 0 ∧
      (set_tuple skb zeroTuple).daddr = 0 ∧
      (set_tuple skb zeroTuple).pad = List.replicate 7 0) ∧
    (((skb.mem (skb.head + skb.network_header)).getD 0) >>> 4 = 4 →
      (set_tuple skb zeroTuple).saddr =
        readScalar skb.mem (skb.head + skb.network_header + 12) 4 ∧
      (set_tuple skb zeroTuple).daddr =
        readScalar skb.mem (skb.head + skb.network_header + 16) 4) ∧
    ((set_tuple skb zeroTuple).proto = IPPROTO_TCP ∨
        (set_tuple skb zeroTuple).proto = IPPROTO_UDP →
      (set_tuple skb zeroTuple).sport =
        readScalar skb.mem (skb.head + skb.transport_header) 2 ∧
      (set_tuple skb zeroTuple).dport =
        readScalar skb.mem (skb.head + skb.transport_header + 2) 2) ∧
    ((set_tuple skb zeroTuple).proto ≠ IPPROTO_TCP ∧
        (set_tuple skb zeroTuple).proto ≠ IPPROTO_UDP →
      (set_tuple skb zeroTuple).sport = 0 ∧
      (set_tuple skb zeroTuple).dport = 0) ∧
    (probeRead skb.mem (skb.head + skb.network_header + 12) 4 = none →
      (set_tuple skb zeroTuple).saddr = 0) ∧
    (probeRead skb.mem (skb.head + skb.transport_header) 2 = none →
      (set_tuple skb zeroTuple).sport = 0) := by
  have hproto : (set_tuple skb zeroTuple).proto =
      readScalar skb.mem (skb.head + skb.network_header + 9) 1 := by
    by_cases h4 :
        ((skb.mem (skb.head + skb.network_header)).getD 0) >>> 4 = 4 <;>
      by_cases hT :
        readScalar skb.mem (skb.head + skb.network_header + 9) 1 = 6 <;>
      by_cases hU :
        readScalar skb.mem (skb.head + skb.network_header + 9) 1 = 17 <;>
      simp [set_tuple, zeroTuple, h4, hT, hU, IPPROTO_TCP, IPPROTO_UDP]
  refine ⟨hproto, ?_, ?_, ?_, ?_, ?_, ?_⟩
  · intro h4
    by_cases hT :
        readScalar skb.mem (skb.head + skb.network_header + 9) 1 = 6 <;>
      by_cases hU :
        readScalar skb.mem (skb.head + skb.network_header + 9) 1 = 17 <;>
      simp [set_tuple, zeroTuple, h4, hT, hU, IPPROTO_TCP, IPPROTO_UDP]
  · intro h4
    by_cases hT :
        readScalar skb.mem (skb.head + skb.network_header + 9) 1 = 6 <;>
      by_cases hU :
        readScalar skb.mem (skb.head + skb.network_header + 9) 1 = 17 <;>
      simp [set_tuple, zeroTuple, h4, hT, hU, IPPROTO_TCP, IPPROTO_UDP]
  · intro hor
    rw [hproto] at hor
    by_cases h4 :
        ((skb.mem (skb.head + skb.network_header)).getD 0) >>> 4 = 4 <;>
      rcases hor with h | h <;>
      simp [set_tuple, zeroTuple, h4, h, IPPROTO_TCP, IPPROTO_UDP]
  · intro hne
    rw [hproto] at hne
    obtain ⟨hT, hU⟩ := hne
    simp only [IPPROTO_TCP, IPPROTO_UDP] at hT hU
    by_cases h4 :
        ((skb.mem (skb.head + skb.network_header)).getD 0) >>> 4 = 4 <;>
      simp [set_tuple, zeroTuple, h4, hT, hU, IPPROTO_TCP, IPPROTO_UDP]
  · intro h
    by_cases h4 :
        ((skb.mem (skb.head + skb.network_header)).getD 0) >>> 4 = 4 <;>
      by_cases hT :
        readScalar skb.mem (skb.head + skb.network_header + 9) 1 = 6 <;>
      by_cases hU :
        readScalar skb.mem (skb.head + skb.network_header + 9) 1 = 17 <;>
      simp [set_tuple, zeroTuple, h4, hT, hU, IPPROTO_TCP, IPPROTO_UDP] <;>
      simp [readScalar, h]
  · intro h
    by_cases h4 :
        ((skb.mem (skb.head + skb.network_header)).getD 0) >>> 4 = 4 <;>
      by_cases hT :
        readScalar skb.mem (skb.head + skb.network_header + 9) 1 = 6 <;>
      by_cases hU :
        readScalar skb.mem (skb.head + skb.network_header + 9) 1 = 17 <;>
      simp [set_tuple, zeroTuple, h4, hT, hU, IPPROTO_TCP, IPPROTO_UDP] <;>
      simp [readScalar, h]

theorem set_tuple_amended_witness :
    (set_tuple skb4 zeroTuple).proto =
      readScalar skb4.mem (skb4.head + skb4.network_header + 9) 1 ∧
    (set_tuple skb4 zeroTuple).saddr =
      readScalar skb4.mem (skb4.head + skb4.network_header + 12) 4 ∧
    (set_tuple skb4 zeroTuple).daddr =
      readScalar skb4.mem (skb4.head + skb4.network_header + 16) 4 ∧
    (set_tuple skb4 zeroTuple).sport =
      readScalar skb4.mem (skb4.head + skb4.transport_header) 2 :=
  ⟨(set_tuple_amended skb4).1,
    ((set_tuple_amended skb4).2.2.1 (by decide)).1,
    ((set_tuple_amended skb4).2.2.1 (by decide)).2,
    ((set_tuple_amended skb4).2.2.2.1 (Or.inl (by decide))).1⟩

/-- Claim C10 counterexample: an IPv4 object whose destination address is
0.0.0.0 has its daddr read succeed, yet the emitted tuple's pad is still
all-zero, so "the pad is not all-zero" does not hold as stated. -/
theorem set_tuple_pad_counterexample :
    (((skb4z.mem (skb4z.head + skb4z.network_header)).getD 0) >>> 4 = 4) ∧
    (probeRead skb4z.mem (skb4z.head + skb4z.network_header + 16) 4).isSome =
      true ∧
    (set_tuple skb4z zeroTuple).pad = List.replicate 7 0 := by
  decide

/-- Claim C10 (amended): when the version nibble is 4 and the 4-byte
destination-address read succeeds, set_tuple copies those bytes into the
first four bytes of the tuple's pad, so pad duplicates daddr and is
non-zero whenever daddr is non-zero. -/
theorem set_tuple_pad_daddr (skb : SkBuff) (bs : List Nat)
    (hv : ((skb.mem (skb.head + skb.network_header)).getD 0) >>> 4 = 4)
    (hr : probeRead skb.mem (skb.head + skb.network_header + 16) 4 =
      some bs) :
    (set_tuple skb zeroTuple).pad = bs ++ List.replicate 3 0 ∧
    (set_tuple skb zeroTuple).daddr = leVal bs ∧
    (leVal bs ≠ 0 → (set_tuple skb zeroTuple).pad ≠ List.replicate 7 0) := by
  have hpad : (set_tuple skb zeroTuple).pad = bs ++ List.replicate 3 0 := by
    by_cases hT : readScalar skb.mem (skb.head + skb.network_header + 9) 1 =
        6 <;>
      by_cases hU : readScalar skb.mem
          (skb.head + skb.network_header + 9) 1 = 17 <;>
      simp [set_tuple, zeroTuple, hv, hT, hU, hr, IPPROTO_TCP, IPPROTO_UDP]
  have hdaddr : (set_tuple skb zeroTuple).daddr = leVal bs := by
    by_cases hT : readScalar skb.mem (skb.head + skb.network_header + 9) 1 =
        6 <;>
      by_cases hU : readScalar skb.mem
          (skb.head + skb.network_header + 9) 1 = 17 <;>
      simp [set_tuple, zeroTuple, hv, hT, hU, IPPROTO_TCP, IPPROTO_UDP] <;>
      simp [readScalar, hr]
  refine ⟨hpad, hdaddr, ?_⟩
  intro hnz hz
  rw [hpad] at hz
  have hlen : bs.length = 4 := probeRead_length skb.mem 4 _ bs hr
  have hsplit : List.replicate 7 (0 : Nat) =
      [0, 0, 0, 0] ++ List.replicate 3 0 := by decide
  rw [hsplit] at hz
  have := (List.append_inj hz (by simp [hlen])).1
  subst this
  exact hnz (by decide)

theorem set_tuple_pad_daddr_witness :
    (set_tuple skb4 zeroTuple).pad = [10, 0, 0, 2] ++ List.replicate 3 0 ∧
    (set_tuple skb4 zeroTuple).daddr = leVal [10, 0, 0, 2] ∧
    (leVal [10, 0, 0, 2] ≠ 0 →
      (set_tuple skb4 zeroTuple).pad ≠ List.replicate 7 0) :=
  set_tuple_pad_daddr skb4 [10, 0, 0, 2] (by decide) (by decide)

end Pwru
